import Mathlib

/-!
Shallow embedding of the `primitive_db` engine
(`src/primitive_db/core.py`, `src/primitive_db/parser.py`, `src/decorators.py`).

Conventions of the embedding:
* Python primitive values (`int`, `str`, `bool`) become the closed inductive
  `Value`.  Python's runtime facts that `bool` is a subclass of `int`
  (`isinstance(True, int)` is `True`) and that `True == 1` are modelled
  explicitly by `isInstInt` and `pyEq`.
* Python `dict` objects (metadata, records, clauses, the cache, and the set
  of persisted per-table JSON documents) become insertion-ordered association
  lists `Dict α` whose `dictSet` replaces an existing key in place and
  otherwise appends, exactly like CPython dicts.
* File I/O (`load_table_data` / `save_table_data`) becomes explicit passing
  of a `Files` value: one entry per persisted `data/<table>.json` document;
  a missing document loads as `[]`, as in `utils.load_table_data`.
* The `@handle_db_errors` decorator turns any uncaught exception into a
  printed message and a `None` return value; operations that can raise
  (`record["ID"]` raising `KeyError`, `max` over non-numeric IDs raising
  `TypeError`) therefore return `Option` results, `none` being the
  decorator's swallowed-exception outcome, and always leave the files
  unchanged in that case (no write had happened yet).
* The result cache of `decorators.create_cacher` is a `Cache` value threaded
  through `select` only; `insert`, `update` and `delete` do not receive it,
  mirroring the source where only `select` calls `cacher`.
-/

namespace PrimitiveDb

/-- A Python primitive value: `int`, `str` or `bool`. -/
inductive Value where
  | vInt : Int → Value
  | vStr : String → Value
  | vBool : Bool → Value
deriving DecidableEq, Repr

/-- Python `isinstance(v, int)`.  In CPython `bool` is a subclass of `int`,
so booleans satisfy this check. -/
def isInstInt : Value → Bool
  | .vInt _ => true
  | .vBool _ => true
  | .vStr _ => false

/-- Python `isinstance(v, str)`. -/
def isInstStr : Value → Bool
  | .vStr _ => true
  | _ => false

/-- Python `isinstance(v, bool)`.  An `int` is not a `bool`. -/
def isInstBool : Value → Bool
  | .vBool _ => true
  | _ => false

/-- Python `==` on primitive values: `True == 1` and `False == 0` hold,
values of kind `str` never equal ints or bools. -/
def pyEq : Value → Value → Bool
  | .vInt a, .vInt b => a = b
  | .vStr a, .vStr b => a = b
  | .vBool a, .vBool b => a = b
  | .vInt a, .vBool b => a = (if b then (1 : Int) else 0)
  | .vBool a, .vInt b => (if a then (1 : Int) else 0) = b
  | _, _ => false

/-- Python `str(v)` on a primitive value. -/
def pyStrValue : Value → String
  | .vInt n => toString n
  | .vStr s => s
  | .vBool b => if b then "True" else "False"

/-- Python `repr(v)`, as used inside `str(dict)`.  For string values CPython
picks single quotes (we model the quote-free common case). -/
def pyReprValue : Value → String
  | .vInt n => toString n
  | .vStr s => "\x27" ++ s ++ "\x27"
  | .vBool b => if b then "True" else "False"

/-- The numeric view CPython uses when comparing or adding ints and bools
(`True` counts as `1`, `False` as `0`); strings have none, so `max(...) + 1`
over a list containing a string ID raises `TypeError`. -/
def valueAsInt? : Value → Option Int
  | .vInt n => some n
  | .vBool b => some (if b then 1 else 0)
  | .vStr _ => none

/-- Python `str.lower` on one character (ASCII letters; the command
language of this engine is ASCII). -/
def pyLowerChar (c : Char) : Char :=
  if 'A' ≤ c ∧ c ≤ 'Z' then Char.ofNat (c.toNat + 32) else c

/-- Python `str.lower` (ASCII). -/
def pyLower (s : String) : String :=
  String.mk (s.data.map pyLowerChar)

/-- The whitespace characters Python's `str.strip` removes (ASCII range). -/
def isPyWhitespace (c : Char) : Bool :=
  c = ' ' ∨ c = '\t' ∨ c = '\n' ∨ c = '\r' ∨ c = Char.ofNat 11 ∨ c = Char.ofNat 12

/-- Python `str.strip()`. -/
def pyStrip (s : String) : String :=
  String.mk (((s.data.dropWhile isPyWhitespace).reverse.dropWhile isPyWhitespace).reverse)

/-- Decimal digit run to a number: `none` unless the characters are one or
more digits. -/
def pyDigits? (cs : List Char) : Option Nat :=
  if cs.isEmpty then none
  else cs.foldl
    (fun acc c => acc.bind fun n => if c.isDigit then some (n * 10 + (c.toNat - 48)) else none)
    (some 0)

/-- Python `int(s)` on a stripped token: optional sign and decimal digits
(CPython extras such as underscore grouping or unicode digits are not
modelled; no claim depends on them). -/
def pyInt? (s : String) : Option Int :=
  match s.data with
  | '-' :: rest => (pyDigits? rest).map (fun n => -(n : Int))
  | '+' :: rest => (pyDigits? rest).map (fun n => (n : Int))
  | cs => (pyDigits? cs).map (fun n => (n : Int))

/-- First character test (Python `s.startswith(c)` for one character). -/
def headIs (s : String) (c : Char) : Bool :=
  s.data.head? = some c

/-- Last character test (Python `s.endswith(c)` for one character). -/
def lastIs (s : String) (c : Char) : Bool :=
  s.data.getLast? = some c

/-- Python `col.split(':', 1)` guarded by `':' in col`: the text before the
first colon and the text after it, or `none` when there is no colon. -/
def splitFirstColonAux : List Char → Option (List Char × List Char)
  | [] => none
  | c :: cs =>
    if c = ':' then some ([], cs)
    else (splitFirstColonAux cs).map (fun p => (c :: p.1, p.2))

/-- `splitFirstColonAux` on strings. -/
def splitFirstColon (s : String) : Option (String × String) :=
  (splitFirstColonAux s.data).map (fun p => (String.mk p.1, String.mk p.2))

/-- A CPython `dict` with `String` keys, as an insertion-ordered association
list with unique keys. -/
abbrev Dict (α : Type) := List (String × α)

/-- `d[k]` / `d.get(k)`: the value stored at `k`, if any. -/
def dictGet? {α : Type} (d : Dict α) (k : String) : Option α :=
  (d.find? (fun p => p.1 = k)).map (·.2)

/-- `k in d`. -/
def dictHas {α : Type} (d : Dict α) (k : String) : Bool :=
  d.any (fun p => p.1 = k)

/-- `d[k] = v`: replaces the value at an existing key in place (keeping its
position, like CPython), otherwise appends the new entry. -/
def dictSet {α : Type} : Dict α → String → α → Dict α
  | [], k, v => [(k, v)]
  | p :: rest, k, v => if p.1 = k then (k, v) :: rest else p :: dictSet rest k v

/-- `del d[k]` (total version; deleting an absent key is the identity). -/
def dictRemove {α : Type} (d : Dict α) (k : String) : Dict α :=
  d.filter (fun p => p.1 ≠ k)

/-- `list(d.keys())`. -/
def dictKeys {α : Type} (d : Dict α) : List String :=
  d.map (·.1)

/-- One record: a column-name-to-value mapping, as stored in a table's JSON
document. -/
abbrev Record := Dict Value

/-- One column of a table schema, the `{"name": ..., "type": ...}` objects
of `db_meta.json`. -/
structure Column where
  name : String
  type : String
deriving DecidableEq, Repr

/-- One table's schema entry in `db_meta.json`. -/
structure TableDef where
  columns : List Column
deriving DecidableEq, Repr

/-- The schema store (`db_meta.json`): table name to table definition. -/
abbrev Meta := Dict TableDef

/-- The record store: one entry per persisted `data/<table>.json` document. -/
abbrev Files := Dict (List Record)

/-- Outcome of a `select`: success flag, message, data. -/
abbrev SelectOutcome := Bool × String × List Record

/-- The process-lifetime result cache of `decorators.create_cacher`. -/
abbrev Cache := Dict SelectOutcome

/-- `constants.VALID_TYPES` (a Python set; listed here in one fixed order,
which only affects the unsupported-type message text). -/
def VALID_TYPES : List String := ["int", "str", "bool"]

def ERROR_TABLE_EXISTS (t : String) : String :=
  "Таблица \"" ++ t ++ "\" уже существует."

def ERROR_TABLE_NOT_EXISTS (t : String) : String :=
  "Таблица \"" ++ t ++ "\" не существует."

def ERROR_INVALID_FORMAT (c : String) : String :=
  "Некорректный формат столбца: \"" ++ c ++ "\". Используйте \"имя:тип\"."

def ERROR_UNSUPPORTED_TYPE (ty : String) : String :=
  "Неподдерживаемый тип данных: \"" ++ ty ++ "\". Допустимые: " ++
    ", ".intercalate VALID_TYPES ++ "."

def ERROR_WRONG_VALUE_COUNT (expected actual : Nat) : String :=
  "Неверное количество значений. Ожидается: " ++ toString expected ++
    ", получено: " ++ toString actual ++ "."

def ERROR_TYPE_MISMATCH : String := "Несоответствие типов данных."

def SUCCESS_TABLE_CREATED (t cols : String) : String :=
  "Таблица \"" ++ t ++ "\" успешно создана. Столбцы: " ++ cols

def SUCCESS_TABLE_DROPPED (t : String) : String :=
  "Таблица \"" ++ t ++ "\" успешно удалена."

def SUCCESS_RECORD_ADDED (newId : Int) (t : String) : String :=
  "Запись с ID=" ++ toString newId ++ " успешно добавлена в таблицу \"" ++ t ++ "\"."

def SUCCESS_RECORD_UPDATED (ids t : String) : String :=
  "Записи с ID=" ++ ids ++ " в таблице \"" ++ t ++ "\" успешно обновлены."

def SUCCESS_RECORD_DELETED (ids t : String) : String :=
  "Записи с ID=" ++ ids ++ " успешно удалены из таблицы \"" ++ t ++ "\"."

def COLUMN_NOT_EXISTS (c t : String) : String :=
  "Столбец \"" ++ c ++ "\" не существует в таблице \"" ++ t ++ "\"."

def TABLE_EMPTY_MSG (t : String) : String :=
  "Таблица \"" ++ t ++ "\" пуста."

def NO_RECORDS_FOUND : String := "Записи не найдены."

def NO_RECORDS_MATCH : String := "Записи не найдены по заданному условию."

/-- `utils.load_table_data`: a missing document loads as `[]`. -/
def load_table_data (files : Files) (t : String) : List Record :=
  (dictGet? files t).getD []

/-- `utils.save_table_data`: whole-document overwrite. -/
def save_table_data (files : Files) (t : String) (data : List Record) : Files :=
  dictSet files t data

/-- `core.get_column_types`: `{}` for an absent table, else the dict
comprehension `{col["name"]: col["type"] for col in columns}`. -/
def get_column_types (meta : Meta) (t : String) : Dict String :=
  match dictGet? meta t with
  | none => []
  | some td => td.columns.foldl (fun d c => dictSet d c.name c.type) []

/-- The per-value branch of `core.validate_data_types`: the three
`isinstance` checks; an unknown declared type passes. -/
def typeOk (expected : String) (v : Value) : Bool :=
  if expected = "int" then isInstInt v
  else if expected = "str" then isInstStr v
  else if expected = "bool" then isInstBool v
  else true

/-- `core.validate_data_types`. -/
def validate_data_types (values : List Value) (column_types : Dict String) : Bool :=
  let data_columns := (dictKeys column_types).drop 1
  if values.length ≠ data_columns.length then false
  else (values.zip data_columns).all
    (fun p => typeOk ((dictGet? column_types p.2).getD "") p.1)

/-- The shared WHERE-matching loop of `select`/`update`/`delete`:
`record.get(column) != value` for every clause entry, with Python `==`
(an absent column yields `None`, which never equals a primitive value). -/
def matchesWhere (w : Dict Value) (r : Record) : Bool :=
  w.all (fun p =>
    match dictGet? r p.1 with
    | some v => pyEq v p.2
    | none => false)

/-- The SET-application loop of `update`:
`for column, new_value in set_clause.items(): record[column] = new_value`. -/
def applySet (setC : Dict Value) (r : Record) : Record :=
  setC.foldl (fun r p => dictSet r p.1 p.2) r

/-- The `record["ID"]` reads of `update`/`delete` over a list of records:
`none` models the `KeyError` a record without an `ID` key raises (swallowed
by `@handle_db_errors`). -/
def getIds : List Record → Option (List Value)
  | [] => some []
  | r :: rest =>
    match dictGet? r "ID" with
    | none => none
    | some v => (getIds rest).map (v :: ·)

/-- The `record.get("ID", 0)` reads of `insert`, as Python numbers:
`none` models the `TypeError` that `max(ids) + 1` raises when some ID is a
string (swallowed by `@handle_db_errors`). -/
def getIdNums : List Record → Option (List Int)
  | [] => some []
  | r :: rest =>
    match valueAsInt? ((dictGet? r "ID").getD (Value.vInt 0)) with
    | none => none
    | some n => (getIdNums rest).map (n :: ·)

/-- `new_id = 1`, or `max(ids) + 1` when the table held records. -/
def newIdFrom (ids : List Int) : Int :=
  match ids.max? with
  | none => 1
  | some m => m + 1

/-- The column-spec parsing loop of `core.create_table`: stops at the first
malformed or unsupported spec. -/
def parseColumns : List String → Except String (List Column)
  | [] => .ok []
  | col :: rest =>
    match splitFirstColon col with
    | none => .error (ERROR_INVALID_FORMAT col)
    | some (a, tyRaw) =>
      let ty := pyLower tyRaw
      if ty ∈ VALID_TYPES then
        (parseColumns rest).map (fun cs => ⟨a, ty⟩ :: cs)
      else .error (ERROR_UNSUPPORTED_TYPE ty)

/-- `name:type` rendering used in success messages. -/
def colSpec (c : Column) : String := c.name ++ ":" ++ c.type

/-- `core.create_table`. -/
def create_table (meta : Meta) (files : Files) (t : String) (columns : List String) :
    (Bool × String) × Meta × Files :=
  if dictHas meta t then ((false, ERROR_TABLE_EXISTS t), meta, files)
  else
    match parseColumns columns with
    | .error msg => ((false, msg), meta, files)
    | .ok parsed =>
      let full_columns := ({name := "ID", type := "int"} : Column) :: parsed
      let meta2 := dictSet meta t ⟨full_columns⟩
      let files2 := save_table_data files t []
      ((true, SUCCESS_TABLE_CREATED t (", ".intercalate (full_columns.map colSpec))),
       meta2, files2)

/-- `core.drop_table` (after the interactive confirmation, which is out of
scope per spec §1): removes the schema entry and deletes the table's
document. -/
def drop_table (meta : Meta) (files : Files) (t : String) :
    (Bool × String) × Meta × Files :=
  if ¬ dictHas meta t then ((false, ERROR_TABLE_NOT_EXISTS t), meta, files)
  else ((true, SUCCESS_TABLE_DROPPED t), dictRemove meta t, dictRemove files t)

/-- `core.insert`.  The first component is the wrapped function's return
value (`none` = exception swallowed by `@handle_db_errors`); the second is
the record store after the call. -/
def insert (meta : Meta) (files : Files) (t : String) (values : List Value) :
    Option (Bool × String) × Files :=
  if ¬ dictHas meta t then (some (false, ERROR_TABLE_NOT_EXISTS t), files)
  else
    let table_data := load_table_data files t
    let column_types := get_column_types meta t
    let data_columns := (dictKeys column_types).drop 1
    if values.length ≠ data_columns.length then
      (some (false, ERROR_WRONG_VALUE_COUNT data_columns.length values.length), files)
    else if validate_data_types values column_types = false then
      (some (false, ERROR_TYPE_MISMATCH), files)
    else
      match getIdNums table_data with
      | none => (none, files)
      | some ids =>
        let new_id := newIdFrom ids
        let new_record : Record :=
          (data_columns.zip values).foldl (fun r p => dictSet r p.1 p.2)
            [("ID", Value.vInt new_id)]
        (some (true, SUCCESS_RECORD_ADDED new_id t),
         save_table_data files t (table_data ++ [new_record]))

/-- Python truthiness of the `where_clause` argument: `None` and `{}` are
falsy (`if where_clause:` in `execute_select`). -/
def whereTruthy : Option (Dict Value) → Bool
  | none => false
  | some d => !d.isEmpty

/-- `str(where_clause)` for the cache key: `"None"` or the CPython dict
rendering `{'col': value, ...}`. -/
def pyStrWhere : Option (Dict Value) → String
  | none => "None"
  | some d =>
    "\x7b" ++
      ", ".intercalate (d.map (fun p => "\x27" ++ p.1 ++ "\x27: " ++ pyReprValue p.2)) ++
    "\x7d"

/-- `cache_key = f"select_{table_name}_{str(where_clause)}"`. -/
def cache_key (t : String) (w : Option (Dict Value)) : String :=
  "select_" ++ t ++ "_" ++ pyStrWhere w

/-- The inner `execute_select` closure of `core.select`. -/
def execute_select (meta : Meta) (files : Files) (t : String)
    (w : Option (Dict Value)) : SelectOutcome :=
  if ¬ dictHas meta t then (false, ERROR_TABLE_NOT_EXISTS t, [])
  else
    let table_data := load_table_data files t
    if table_data.isEmpty then (true, TABLE_EMPTY_MSG t, [])
    else if whereTruthy w then
      let filtered := table_data.filter (matchesWhere (w.getD []))
      if filtered.isEmpty then (true, NO_RECORDS_FOUND, [])
      else (true, "", filtered)
    else (true, "", table_data)

/-- `core.select` composed with the global `cacher` of `decorators.py`:
returns the cached outcome when the key is present, otherwise runs
`execute_select` and stores its outcome under the key. -/
def select (meta : Meta) (files : Files) (cache : Cache) (t : String)
    (w : Option (Dict Value)) : SelectOutcome × Cache :=
  let key := cache_key t w
  match dictGet? cache key with
  | some v => (v, cache)
  | none =>
    let v := execute_select meta files t w
    (v, dictSet cache key v)

/-- `core.update`.  `none` models the `KeyError` raised by `record["ID"]`
on a matched record without an ID (swallowed by the decorator). -/
def update (meta : Meta) (files : Files) (t : String)
    (setC whereC : Dict Value) : Option (Bool × String) × Files :=
  if ¬ dictHas meta t then (some (false, ERROR_TABLE_NOT_EXISTS t), files)
  else
    let column_types := get_column_types meta t
    match (dictKeys setC ++ dictKeys whereC).find? (fun c => !dictHas column_types c) with
    | some c => (some (false, COLUMN_NOT_EXISTS c t), files)
    | none =>
      let table_data := load_table_data files t
      if table_data.isEmpty then (some (false, TABLE_EMPTY_MSG t), files)
      else
        let new_data :=
          table_data.map (fun r => if matchesWhere whereC r then applySet setC r else r)
        let updated := (table_data.filter (matchesWhere whereC)).map (applySet setC)
        -- `updated` / `new_data`: the in-place mutation loop of the source,
        -- with the WHERE match evaluated on each record before its SET.
        match getIds updated with
        | none => (none, files)
        | some ids =>
          if ids.isEmpty then (some (false, NO_RECORDS_MATCH), files)
          else
            (some (true,
                SUCCESS_RECORD_UPDATED (", ".intercalate (ids.map pyStrValue)) t),
             save_table_data files t new_data)

/-- `core.delete` (after the interactive confirmation): a single pass
partitioning records into deleted (matched) and kept (unmatched). -/
def delete (meta : Meta) (files : Files) (t : String) (whereC : Dict Value) :
    Option (Bool × String) × Files :=
  if ¬ dictHas meta t then (some (false, ERROR_TABLE_NOT_EXISTS t), files)
  else
    let table_data := load_table_data files t
    if table_data.isEmpty then (some (false, TABLE_EMPTY_MSG t), files)
    else
      let records_to_keep := table_data.filter (fun r => !matchesWhere whereC r)
      let deleted := table_data.filter (matchesWhere whereC)
      match getIds deleted with
      | none => (none, files)
      | some ids =>
        if ids.isEmpty then (some (false, NO_RECORDS_MATCH), files)
        else
          (some (true,
              SUCCESS_RECORD_DELETED (", ".intercalate (ids.map pyStrValue)) t),
           save_table_data files t records_to_keep)

/-- The whitespace characters of `shlex` (`" \t\r\n"`). -/
def isShWhitespace (c : Char) : Bool :=
  c = ' ' ∨ c = '\t' ∨ c = '\r' ∨ c = '\n'

/-- The single-quote character. -/
def squote : Char := Char.ofNat 39

/-- Lexer state of `shlex`: outside quotes, inside `'...'`, inside `"..."`. -/
inductive ShMode where
  | norm
  | single
  | double
deriving DecidableEq, Repr

/-- Core loop of POSIX-mode `shlex.split` (whitespace-split): `cur` is the
token under construction (`none` = between tokens), `acc` the finished
tokens.  `none` overall models the `ValueError` CPython raises on an
unclosed quote or a dangling escape. -/
def shlexAux : List Char → ShMode → Option String → List String → Option (List String)
  | [], .norm, cur, acc =>
    some (acc ++ (match cur with | some tk => [tk] | none => []))
  | [], .single, _, _ => none
  | [], .double, _, _ => none
  | c :: cs, .norm, cur, acc =>
    if isShWhitespace c then
      match cur with
      | some tk => shlexAux cs .norm none (acc ++ [tk])
      | none => shlexAux cs .norm none acc
    else if c = squote then shlexAux cs .single (some (cur.getD "")) acc
    else if c = '"' then shlexAux cs .double (some (cur.getD "")) acc
    else if c = '\\' then
      match cs with
      | [] => none
      | d :: ds => shlexAux ds .norm (some ((cur.getD "").push d)) acc
    else shlexAux cs .norm (some ((cur.getD "").push c)) acc
  | c :: cs, .single, cur, acc =>
    if c = squote then shlexAux cs .norm cur acc
    else shlexAux cs .single (some ((cur.getD "").push c)) acc
  | c :: cs, .double, cur, acc =>
    if c = '"' then shlexAux cs .norm cur acc
    else if c = '\\' then
      match cs with
      | [] => none
      | d :: ds =>
        if d = '"' ∨ d = '\\' then shlexAux ds .double (some ((cur.getD "").push d)) acc
        else shlexAux ds .double (some (((cur.getD "").push c).push d)) acc
    else shlexAux cs .double (some ((cur.getD "").push c)) acc

/-- `shlex.split(s)`: shell-word splitting respecting quotes; `none` models
the `ValueError` on malformed quoting. -/
def shlexSplit (s : String) : Option (List String) :=
  shlexAux s.data .norm none []

/-- `parser.parse_value`: `true`/`false` case-insensitively, else an
integer, else a quoted or raw text token. -/
def parse_value (s0 : String) : Value :=
  let s := pyStrip s0
  if pyLower s = "true" then .vBool true
  else if pyLower s = "false" then .vBool false
  else
    match pyInt? s with
    | some n => .vInt n
    | none =>
      if (headIs s '"' ∧ lastIs s '"') ∨ (headIs s squote ∧ lastIs s squote) then
        .vStr ((s.drop 1).dropRight 1)
      else .vStr s

/-- `parser.parse_where_condition` as observed through its
`@handle_db_errors` decorator: the `ValueError` raised on a malformed
clause is caught by the decorator, which prints and returns `None` — so at
the value level a malformed clause is indistinguishable from the empty
clause, both yield `none`. -/
def parse_where_condition (s : String) : Option (Dict Value) :=
  if s = "" then none
  else
    match shlexSplit s with
    | none => none
    | some parts =>
      match parts with
      | [c, eq, v] => if eq = "=" then some [(c, parse_value v)] else none
      | _ => none

def ERROR_CMD_FORMAT : String := "Ошибка: Неверный формат команды."

def ERROR_WHERE_FORMAT : String := "Ошибка: Неверный формат условия WHERE."

/-- `engine.handle_select` up to and including the `select` call; the final
pretty-table formatting is out of scope (spec §1).  The `except ValueError`
around `parse_where_condition` in the source is dead code, since the
decorator already swallowed the error and returned `None`. -/
def handle_select_core (meta : Meta) (files : Files) (cache : Cache)
    (args : List String) : String ⊕ (SelectOutcome × Cache) :=
  match args with
  | [] => .inl ERROR_CMD_FORMAT
  | t :: rest =>
    match rest with
    | [] => .inr (select meta files cache t none)
    | w :: rest2 =>
      if pyLower w ≠ "where" then .inl ERROR_WHERE_FORMAT
      else .inr (select meta files cache t (parse_where_condition (" ".intercalate rest2)))

/-! ### Concrete example states used by witnesses and counterexamples -/

/-- Schema store with one table `t` of columns `ID:int, n:int`. -/
def exMetaT : Meta := [("t", ⟨[⟨"ID", "int"⟩, ⟨"n", "int"⟩]⟩)]

/-- Record store where table `t` is empty. -/
def exFilesEmpty : Files := [("t", [])]

/-- A record `{ID: 1, n: 7}`. -/
def exRec1 : Record := [("ID", Value.vInt 1), ("n", Value.vInt 7)]

/-- A record `{ID: 2, n: 8}`. -/
def exRec2 : Record := [("ID", Value.vInt 2), ("n", Value.vInt 8)]

/-- Record store where table `t` holds `exRec1`. -/
def exFilesOne : Files := [("t", [exRec1])]

/-- Record store where table `t` holds `exRec1` and `exRec2`. -/
def exFilesTwo : Files := [("t", [exRec1, exRec2])]

/-- Schema store with one table `b` of columns `ID:int, f:bool`. -/
def exMetaB : Meta := [("b", ⟨[⟨"ID", "int"⟩, ⟨"f", "bool"⟩]⟩)]

/-- Record store where table `b` is empty. -/
def exFilesB : Files := [("b", [])]

/-- Schema store produced by `create_table` for table `u` with `n:int`. -/
def exMetaU : Meta := (create_table [] [] "u" ["n:int"]).2.1

/-- Record store for `u` after `create_table` and an `insert` of `3`. -/
def exFilesU : Files :=
  (insert exMetaU (create_table [] [] "u" ["n:int"]).2.2 "u" [Value.vInt 3]).2

/-! ### Dictionary and store lemmas -/

theorem dictGet?_dictSet_self {α : Type} (d : Dict α) (k : String) (v : α) :
    dictGet? (dictSet d k v) k = some v := by
  induction d with
  | nil => simp [dictSet, dictGet?, List.find?]
  | cons p rest ih =>
    by_cases h : p.1 = k
    · simp [dictSet, dictGet?, List.find?, h]
    · simpa [dictSet, dictGet?, List.find?, h] using ih

theorem dictGet?_dictSet_ne {α : Type} (d : Dict α) (k k' : String) (v : α)
    (h : k' ≠ k) :
    dictGet? (dictSet d k v) k' = dictGet? d k' := by
  induction d with
  | nil => simp [dictSet, dictGet?, List.find?, Ne.symm h]
  | cons p rest ih =>
    by_cases hp : p.1 = k
    · simp [dictSet, dictGet?, List.find?, hp, Ne.symm h]
    · by_cases hp' : p.1 = k'
      · simp [dictSet, dictGet?, List.find?, hp, hp', h]
      · simpa [dictSet, dictGet?, List.find?, hp, hp'] using ih

theorem load_save_self (files : Files) (t : String) (d : List Record) :
    load_table_data (save_table_data files t d) t = d := by
  simp [load_table_data, save_table_data, dictGet?_dictSet_self]

theorem dictSet_of_not_has {α : Type} (d : Dict α) (k : String) (v : α)
    (h : dictHas d k = false) : dictSet d k v = d ++ [(k, v)] := by
  induction d with
  | nil => rfl
  | cons p rest ih =>
    simp only [dictHas, List.any_cons, Bool.or_eq_false_iff] at h
    have hp : ¬ p.1 = k := by simpa using h.1
    simp [dictSet, hp, ih (by simpa [dictHas] using h.2)]

theorem foldl_dictSet_of_nodup (pairs : List (String × Value)) (init : Record)
    (hnd : (pairs.map Prod.fst).Nodup)
    (hinit : ∀ k ∈ pairs.map Prod.fst, dictHas init k = false) :
    pairs.foldl (fun r p => dictSet r p.1 p.2) init = init ++ pairs := by
  induction pairs generalizing init with
  | nil => simp
  | cons q rest ih =>
    have hnd' := hnd
    rw [List.map_cons, List.nodup_cons] at hnd'
    have h1 : dictHas init q.1 = false := hinit q.1 (by simp)
    have hstep : dictSet init q.1 q.2 = init ++ [q] := by
      rw [dictSet_of_not_has _ _ _ h1]
    have hinit2 : ∀ k ∈ rest.map Prod.fst, dictHas (init ++ [q]) k = false := by
      intro k hk
      have hk1 : dictHas init k = false := hinit k (by simp [hk])
      have hk2 : ¬ q.1 = k := fun he => hnd'.1 (he ▸ hk)
      have happ : dictHas (init ++ [q]) k = (dictHas init k || dictHas [q] k) := by
        simp [dictHas, List.any_append]
      rw [happ, hk1]
      simp [dictHas, hk2]
    rw [List.foldl_cons, hstep, ih (init ++ [q]) hnd'.2 hinit2]
    simp

/-- After a `select`, its outcome is stored in the returned cache under the
derived key. -/
theorem select_cached_key (meta : Meta) (files : Files) (cache : Cache)
    (t : String) (w : Option (Dict Value)) :
    dictGet? (select meta files cache t w).2 (cache_key t w)
      = some (select meta files cache t w).1 := by
  unfold select
  cases h : dictGet? cache (cache_key t w) with
  | some v => simp [h]
  | none => simp [h, dictGet?_dictSet_self]

/-- A `select` whose key is already cached returns the cached outcome and
leaves the cache unchanged, whatever the current stores hold. -/
theorem select_of_cached (meta : Meta) (files : Files) (cache : Cache)
    (t : String) (w : Option (Dict Value)) (v : SelectOutcome)
    (h : dictGet? cache (cache_key t w) = some v) :
    select meta files cache t w = (v, cache) := by
  unfold select
  simp [h]

/-- C1: if a `select` on table `t` with predicate `w` returns an empty
result (now cached under the key derived from `t` and `w`'s string form),
then a later `select` with the same table and predicate — against *any*
schema and record store, in particular the ones produced by an intervening
`insert` of a matching record — returns the very same stale cached outcome
with empty data and leaves the cache unchanged.  Mutating operations cannot
invalidate entries: `insert`, `update` and `delete` do not touch the cache
at all (their embeddings do not even receive it, as in the source where
only `select` calls `cacher`). -/
theorem select_stale_after_mutation (meta : Meta) (files : Files) (cache : Cache)
    (t : String) (w : Option (Dict Value)) (meta2 : Meta) (files2 : Files)
    (hempty : ((select meta files cache t w).1).2.2 = []) :
    select meta2 files2 (select meta files cache t w).2 t w
      = ((select meta files cache t w).1, (select meta files cache t w).2) ∧
    ((select meta2 files2 (select meta files cache t w).2 t w).1).2.2 = [] := by
  have hs : select meta2 files2 (select meta files cache t w).2 t w
      = ((select meta files cache t w).1, (select meta files cache t w).2) :=
    select_of_cached _ _ _ _ _ _ (select_cached_key meta files cache t w)
  exact ⟨hs, by rw [hs]; exact hempty⟩

/-- Witness for C1: table `t` (`ID:int, n:int`) is empty; a `select` with
predicate `n = 5` caches the empty outcome; an `insert` of the value `5`
then creates the matching record `{ID: 1, n: 5}`; the repeated `select`
with the same predicate still returns the stale empty data. -/
theorem select_stale_after_mutation_witness :
    matchesWhere [("n", Value.vInt 5)] [("ID", Value.vInt 1), ("n", Value.vInt 5)] = true ∧
    (insert exMetaT exFilesEmpty "t" [Value.vInt 5]).2
      = [("t", [[("ID", Value.vInt 1), ("n", Value.vInt 5)]])] ∧
    ((select exMetaT (insert exMetaT exFilesEmpty "t" [Value.vInt 5]).2
        (select exMetaT exFilesEmpty [] "t" (some [("n", Value.vInt 5)])).2
        "t" (some [("n", Value.vInt 5)])).1).2.2 = [] := by
  refine ⟨by decide, by decide, ?_⟩
  exact (select_stale_after_mutation exMetaT exFilesEmpty [] "t"
    (some [("n", Value.vInt 5)]) exMetaT
    (insert exMetaT exFilesEmpty "t" [Value.vInt 5]).2 (by decide)).2

/-- C10: the cache memoizes failure outcomes too.  If the key derived from
table `t` and predicate `w` is not yet cached and `t` is absent from the
schema store, the first `select` returns the `NotFound` failure — and every
later `select` with the same table and predicate, against *any* schema and
record stores (in particular ones where the table has since been created
and populated), returns that identical cached failure. -/
theorem select_caches_not_found (meta : Meta) (files : Files) (cache : Cache)
    (t : String) (w : Option (Dict Value)) (meta2 : Meta) (files2 : Files)
    (hkey : dictGet? cache (cache_key t w) = none)
    (habsent : dictHas meta t = false) :
    (select meta files cache t w).1 = (false, ERROR_TABLE_NOT_EXISTS t, []) ∧
    select meta2 files2 (select meta files cache t w).2 t w
      = ((false, ERROR_TABLE_NOT_EXISTS t, []), (select meta files cache t w).2) := by
  have h1 : (select meta files cache t w).1 = (false, ERROR_TABLE_NOT_EXISTS t, []) := by
    simp [select, hkey, execute_select, habsent]
  refine ⟨h1, ?_⟩
  have hs : select meta2 files2 (select meta files cache t w).2 t w
      = ((select meta files cache t w).1, (select meta files cache t w).2) :=
    select_of_cached _ _ _ _ _ _ (select_cached_key meta files cache t w)
  rw [hs, h1]

/-- Witness for C10: with everything empty, `select from u` fails `NotFound`
and the failure is cached; after `create_table u n:int` and
`insert into u values (3)` — so `u` now exists and holds `{ID: 1, n: 3}` —
the same `select` still returns the cached `NotFound` failure. -/
theorem select_caches_not_found_witness :
    dictHas exMetaU "u" = true ∧
    load_table_data exFilesU "u" = [[("ID", Value.vInt 1), ("n", Value.vInt 3)]] ∧
    (select [] [] [] "u" none).1 = (false, ERROR_TABLE_NOT_EXISTS "u", []) ∧
    (select exMetaU exFilesU (select [] [] [] "u" none).2 "u" none).1
      = (false, ERROR_TABLE_NOT_EXISTS "u", []) := by
  have h := select_caches_not_found [] [] [] "u" none exMetaU exFilesU (by rfl) (by rfl)
  exact ⟨by rfl, by rfl, h.1, by rw [h.2]⟩

/-- Counterexample to C2: table `t` declares `n:int`, yet inserting the
*boolean* `True` succeeds and appends `{ID: 1, n: True}` — because
`validate_data_types` uses `isinstance(value, int)` and Python's `bool` is
a subclass of `int`.  The claim said this insert fails with `TypeMismatch`
and appends nothing. -/
theorem insert_accepts_bool_for_int_column :
    insert exMetaT exFilesEmpty "t" [Value.vBool true]
      = (some (true, SUCCESS_RECORD_ADDED 1 "t"),
         [("t", [[("ID", Value.vInt 1), ("n", Value.vBool true)]])]) := by
  rfl

/-- C2 as amended: for an insert into an existing table with the right
number of values, if any supplied value fails its column's `isinstance`
check — an integer where `bool` is declared, a string where `int` or `bool`
is declared, a non-string where `str` is declared; but *not* a boolean
where `int` is declared, which Python's subclassing lets through — the
insert fails with the `TypeMismatch` message and the record store is
unchanged. -/
theorem insert_rejects_isinstance_mismatch (meta : Meta) (files : Files)
    (t : String) (values : List Value)
    (ht : dictHas meta t = true)
    (hlen : values.length = ((dictKeys (get_column_types meta t)).drop 1).length)
    (hbad : ∃ p ∈ values.zip ((dictKeys (get_column_types meta t)).drop 1),
        typeOk ((dictGet? (get_column_types meta t) p.2).getD "") p.1 = false) :
    insert meta files t values = (some (false, ERROR_TYPE_MISMATCH), files) := by
  have hval : validate_data_types values (get_column_types meta t) = false := by
    obtain ⟨p, hp, hbadp⟩ := hbad
    cases hall : (values.zip ((dictKeys (get_column_types meta t)).drop 1)).all
        (fun q => typeOk ((dictGet? (get_column_types meta t) q.2).getD "") q.1) with
    | true =>
      rw [List.all_eq_true] at hall
      exact absurd (hall p hp) (by simp [hbadp])
    | false =>
      simp only [validate_data_types]
      rw [if_neg (by simp [hlen])]
      exact hall
  unfold insert
  simp [ht, hlen, hval]

/-- Witness for the amended C2: inserting the *integer* `0` into the
declared `bool` column `f` of table `b` is rejected with `TypeMismatch`
and writes nothing (`isinstance(0, bool)` is false). -/
theorem insert_rejects_isinstance_mismatch_witness :
    insert exMetaB exFilesB "b" [Value.vInt 0]
      = (some (false, ERROR_TYPE_MISMATCH), exFilesB) :=
  insert_rejects_isinstance_mismatch exMetaB exFilesB "b" [Value.vInt 0]
    (by rfl) (by rfl) ⟨(Value.vInt 0, "f"), by decide, by rfl⟩

/-- Counterexample to C3: table `t` declares `n:int`, there is one record
`{ID: 1, n: 7}`, and `update t set n = True where ID = 1` *succeeds* and
rewrites the record to `{ID: 1, n: True}` — `core.update` performs no type
checking at all on SET values.  The claim said such an update is rejected
with no record modified. -/
theorem update_accepts_bool_for_int_column :
    update exMetaT exFilesOne "t" [("n", Value.vBool true)] [("ID", Value.vInt 1)]
      = (some (true, SUCCESS_RECORD_UPDATED "1" "t"),
         [("t", [[("ID", Value.vInt 1), ("n", Value.vBool true)]])]) := by
  rfl

/-- C3 as amended: `update` never type-checks SET values.  Whenever the
table exists, every SET/WHERE column is a schema column, the table is
non-empty and at least one record matches, the update succeeds and writes
every SET value — of *any* runtime kind, matching the declared column type
or not — into every matched record (no type hypothesis appears below). -/
theorem update_applies_any_value_kind (meta : Meta) (files : Files) (t : String)
    (setC whereC : Dict Value)
    (ht : dictHas meta t = true)
    (hcols : ∀ c ∈ dictKeys setC ++ dictKeys whereC,
      dictHas (get_column_types meta t) c = true)
    (hne : (load_table_data files t).isEmpty = false)
    (ids : List Value)
    (hids : getIds (((load_table_data files t).filter (matchesWhere whereC)).map
      (applySet setC)) = some ids)
    (hmatch : ids.isEmpty = false) :
    update meta files t setC whereC
      = (some (true, SUCCESS_RECORD_UPDATED (", ".intercalate (ids.map pyStrValue)) t),
         save_table_data files t
           ((load_table_data files t).map
             (fun r => if matchesWhere whereC r then applySet setC r else r))) := by
  have hfind : (dictKeys setC ++ dictKeys whereC).find?
      (fun c => !dictHas (get_column_types meta t) c) = none := by
    rw [List.find?_eq_none]
    intro c hc
    simp [hcols c hc]
  unfold update
  simp [ht, hfind, hne, hids, hmatch]

/-- Witness for the amended C3: `update t set n = "x" where ID = 1` on the
declared `int` column `n` succeeds and stores the string. -/
theorem update_applies_any_value_kind_witness :
    update exMetaT exFilesOne "t" [("n", Value.vStr "x")] [("ID", Value.vInt 1)]
      = (some (true, SUCCESS_RECORD_UPDATED "1" "t"),
         [("t", [[("ID", Value.vInt 1), ("n", Value.vStr "x")]])]) := by
  have h := update_applies_any_value_kind exMetaT exFilesOne "t"
    [("n", Value.vStr "x")] [("ID", Value.vInt 1)] (by rfl) (by decide) (by rfl)
    [Value.vInt 1] (by rfl) (by rfl)
  exact h.trans (by rfl)

/-- C4: for an existing table whose schema columns are `ID` followed by the
pairwise-distinct data columns `names`, an insert of a value list that
passes count and type validation appends exactly one record — the original
records stay untouched in order — whose fields are `ID` mapped to
`max existing ID + 1` (`1` on an empty table, `ids` being the `record.get("ID", 0)`
readings in scan order) followed by the data columns paired positionally
with the supplied values, and reports that new ID in its success message. -/
theorem insert_appends_one_record (meta : Meta) (files : Files) (t : String)
    (values : List Value) (names : List String) (ids : List Int)
    (ht : dictHas meta t = true)
    (hkeys : dictKeys (get_column_types meta t) = "ID" :: names)
    (hnd : ("ID" :: names).Nodup)
    (hlen : values.length = names.length)
    (hval : validate_data_types values (get_column_types meta t) = true)
    (hids : getIdNums (load_table_data files t) = some ids) :
    insert meta files t values
      = (some (true, SUCCESS_RECORD_ADDED (newIdFrom ids) t),
         save_table_data files t
           (load_table_data files t ++
            [("ID", Value.vInt (newIdFrom ids)) :: names.zip values])) := by
  have hdc : (dictKeys (get_column_types meta t)).drop 1 = names := by
    rw [hkeys]
    rfl
  have hnd' := hnd
  rw [List.nodup_cons] at hnd'
  have hrec : (names.zip values).foldl (fun r p => dictSet r p.1 p.2)
      [("ID", Value.vInt (newIdFrom ids))]
      = ("ID", Value.vInt (newIdFrom ids)) :: names.zip values := by
    have hfst : (names.zip values).map Prod.fst = names :=
      List.map_fst_zip names values (le_of_eq hlen.symm)
    rw [foldl_dictSet_of_nodup _ _ (by rw [hfst]; exact hnd'.2) ?_]
    · rfl
    · intro k hk
      rw [hfst] at hk
      have hne : ¬ k = "ID" := fun he => hnd'.1 (he ▸ hk)
      simp only [dictHas, List.any_cons, List.any_nil, Bool.or_false]
      simp [Ne.symm hne]
  unfold insert
  simp [ht, hdc, hlen, hval, hids, hrec]

/-- Witness for C4: table `t` holds `{ID:1, n:7}` and `{ID:2, n:8}`;
inserting `9` appends exactly `{ID: 3, n: 9}` (max existing ID `2` plus 1)
and reports ID 3. -/
theorem insert_appends_one_record_witness :
    insert exMetaT exFilesTwo "t" [Value.vInt 9]
      = (some (true, SUCCESS_RECORD_ADDED 3 "t"),
         [("t", [exRec1, exRec2, [("ID", Value.vInt 3), ("n", Value.vInt 9)]])]) := by
  have h := insert_appends_one_record exMetaT exFilesTwo "t" [Value.vInt 9] ["n"] [1, 2]
    (by rfl) (by rfl) (by decide) (by rfl) (by rfl) (by rfl)
  exact h.trans (by rfl)

/-- C5: whenever `update` succeeds, the table keeps its length (records are
mutated in place, never added or removed, so order is preserved), and every
record that does not match every WHERE entry is identical before and after
at its original position. -/
theorem update_frame (meta : Meta) (files : Files) (t : String)
    (setC whereC : Dict Value) (msg : String) (files2 : Files)
    (h : update meta files t setC whereC = (some (true, msg), files2)) :
    (load_table_data files2 t).length = (load_table_data files t).length ∧
    ∀ (i : Nat) (r : Record), (load_table_data files t)[i]? = some r →
      matchesWhere whereC r = false →
      (load_table_data files2 t)[i]? = some r := by
  unfold update at h
  dsimp only [] at h
  split at h
  · simp at h
  · split at h
    · simp at h
    · split at h
      · simp at h
      · split at h
        · simp at h
        · split at h
          · simp at h
          · rw [Prod.mk.injEq] at h
            obtain ⟨-, hf⟩ := h
            subst hf
            rw [load_save_self]
            refine ⟨List.length_map _ _, ?_⟩
            intro i r hr hm
            rw [List.getElem?_map, hr]
            simp [hm]

/-- Witness for C5: updating `n` to `9` where `ID = 1` on a two-record
table leaves the non-matching second record `{ID:2, n:8}` untouched at its
position and keeps the length. -/
theorem update_frame_witness :
    (load_table_data (update exMetaT exFilesTwo "t" [("n", Value.vInt 9)]
        [("ID", Value.vInt 1)]).2 "t").length = 2 ∧
    (load_table_data (update exMetaT exFilesTwo "t" [("n", Value.vInt 9)]
        [("ID", Value.vInt 1)]).2 "t")[1]? = some exRec2 := by
  have h := update_frame exMetaT exFilesTwo "t" [("n", Value.vInt 9)]
    [("ID", Value.vInt 1)] (SUCCESS_RECORD_UPDATED "1" "t")
    (update exMetaT exFilesTwo "t" [("n", Value.vInt 9)] [("ID", Value.vInt 1)]).2
    (by rfl)
  exact ⟨h.1.trans (by rfl), h.2 1 exRec2 (by rfl) (by rfl)⟩

/-- Counterexample to C6: `ID` is itself a schema column, so the
column-existence check lets `update t set ID = 5 where ID = 1` through, and
the matched record's ID is overwritten: `{ID:1, n:7}` becomes `{ID:5, n:7}`
(the success message even reports the *new* ID `5`, because the source
reads `record["ID"]` after applying the SET clause).  The claim said the ID
field of every record is unchanged by every accepted update. -/
theorem update_can_change_id :
    update exMetaT exFilesOne "t" [("ID", Value.vInt 5)] [("ID", Value.vInt 1)]
      = (some (true, SUCCESS_RECORD_UPDATED "5" "t"),
         [("t", [[("ID", Value.vInt 5), ("n", Value.vInt 7)]])]) := by
  rfl

/-- `applySet` leaves every key outside the SET clause unchanged. -/
theorem dictGet?_applySet_of_not_mem (setC : Dict Value) (r : Record) (k : String)
    (h : k ∉ dictKeys setC) :
    dictGet? (applySet setC r) k = dictGet? r k := by
  induction setC generalizing r with
  | nil => rfl
  | cons q rest ih =>
    have h1 : k ≠ q.1 ∧ k ∉ dictKeys rest := by simpa [dictKeys] using h
    simp only [applySet, List.foldl_cons]
    rw [show rest.foldl (fun r p => dictSet r p.1 p.2) (dictSet r q.1 q.2)
        = applySet rest (dictSet r q.1 q.2) from rfl]
    rw [ih _ h1.2, dictGet?_dictSet_ne _ _ _ _ h1.1]

/-- C6 as amended: for every *successful* update whose SET clause does not
assign the `ID` column, the ID of every record (at every position) is the
same before and after.  When the SET clause does name `ID`, matched
records' IDs are overwritten (see the counterexample). -/
theorem update_preserves_id_without_id_in_set (meta : Meta) (files : Files)
    (t : String) (setC whereC : Dict Value) (msg : String) (files2 : Files)
    (hid : "ID" ∉ dictKeys setC)
    (h : update meta files t setC whereC = (some (true, msg), files2)) :
    ∀ i : Nat, ((load_table_data files2 t)[i]?).map (fun r => dictGet? r "ID")
        = ((load_table_data files t)[i]?).map (fun r => dictGet? r "ID") := by
  unfold update at h
  dsimp only [] at h
  split at h
  · simp at h
  · split at h
    · simp at h
    · split at h
      · simp at h
      · split at h
        · simp at h
        · split at h
          · simp at h
          · rw [Prod.mk.injEq] at h
            obtain ⟨-, hf⟩ := h
            subst hf
            intro i
            rw [load_save_self, List.getElem?_map]
            rcases hr : (load_table_data files t)[i]? with _ | r
            · rfl
            · by_cases hm : matchesWhere whereC r
              · simp [hm, dictGet?_applySet_of_not_mem _ _ _ hid]
              · simp [hm]

/-- Witness for the amended C6: updating `n` where `n = 7` (no `ID` in the
SET clause) leaves the record's ID `1` in place. -/
theorem update_preserves_id_without_id_in_set_witness :
    ((load_table_data (update exMetaT exFilesOne "t" [("n", Value.vInt 9)]
        [("n", Value.vInt 7)]).2 "t")[0]?).map (fun r => dictGet? r "ID")
      = some (some (Value.vInt 1)) := by
  have h := update_preserves_id_without_id_in_set exMetaT exFilesOne "t"
    [("n", Value.vInt 9)] [("n", Value.vInt 7)] (SUCCESS_RECORD_UPDATED "1" "t")
    (update exMetaT exFilesOne "t" [("n", Value.vInt 9)] [("n", Value.vInt 7)]).2
    (by decide) (by rfl)
  exact (h 0).trans (by rfl)

/-- Counterexample to C7: the WHERE text `"a b c"` tokenizes into 3 tokens
with middle token `"b" ≠ "="`.  `parse_where_condition` does raise a
`ValueError` internally, but its `@handle_db_errors` decorator swallows it
and returns `None` — so the observable return value is `none`, and
`handle_select` then proceeds with an *absent predicate*: on a populated
table it succeeds and returns all records instead of surfacing a command
failure.  The claim said the malformed clause is never silently treated as
an absent predicate. -/
theorem malformed_where_selects_all :
    parse_where_condition "a b c" = none ∧
    handle_select_core exMetaT exFilesOne [] ["t", "where", "a", "b", "c"]
      = Sum.inr ((true, "", [exRec1]),
                 [(cache_key "t" none, (true, "", [exRec1]))]) :=
  ⟨rfl, rfl⟩

/-- C7 as amended: for every non-empty WHERE text that does not tokenize
into exactly 3 tokens with middle token `"="`, the inner parser raises a
FormatError, but the error-handling decorator catches it and returns the
`None` value — indistinguishable from an absent predicate — and the select
handler therefore silently runs the query with no predicate at all.
(`handle_update`/`handle_delete` happen to reject the resulting `None` with
a missing-WHERE message, but `handle_select` does not.) -/
theorem malformed_where_becomes_absent_predicate (rest2 : List String)
    (t : String) (meta : Meta) (files : Files) (cache : Cache)
    (parts : List String)
    (hne : " ".intercalate rest2 ≠ "")
    (hsplit : shlexSplit (" ".intercalate rest2) = some parts)
    (hbad : parts.length ≠ 3 ∨ parts[1]? ≠ some "=") :
    parse_where_condition (" ".intercalate rest2) = none ∧
    handle_select_core meta files cache (t :: "where" :: rest2)
      = Sum.inr (select meta files cache t none) := by
  have hp : parse_where_condition (" ".intercalate rest2) = none := by
    unfold parse_where_condition
    rw [if_neg (by simpa using hne), hsplit]
    rcases parts with _ | ⟨c, _ | ⟨e, _ | ⟨v, _ | ⟨d, rest⟩⟩⟩⟩
    · rfl
    · rfl
    · rfl
    · rcases hbad with hb | hb
      · exact absurd rfl hb
      · have he : ¬ e = "=" := by simpa using hb
        simp [he]
    · rfl
  refine ⟨hp, ?_⟩
  show (if pyLower "where" ≠ "where" then (Sum.inl ERROR_WHERE_FORMAT : String ⊕ (SelectOutcome × Cache))
      else Sum.inr (select meta files cache t (parse_where_condition (" ".intercalate rest2))))
    = Sum.inr (select meta files cache t none)
  rw [if_neg (by decide), hp]

/-- Witness for the amended C7: the two-token WHERE text `"a ="` yields
`none` and the select handler runs the predicate-free query. -/
theorem malformed_where_becomes_absent_predicate_witness :
    parse_where_condition "a =" = none ∧
    handle_select_core exMetaT exFilesTwo [] ["t", "where", "a", "="]
      = Sum.inr (select exMetaT exFilesTwo [] "t" none) := by
  have h := malformed_where_becomes_absent_predicate ["a", "="] "t" exMetaT exFilesTwo []
    ["a", "="] (by decide) (by rfl) (by decide)
  exact ⟨h.1, h.2⟩

/-- C8: for a `delete` on an existing, non-empty table: removed records are
exactly those matching every WHERE entry (the persisted set is the
order-preserving filter of the non-matching records), the success message
lists the deleted IDs in original scan order, and when zero records match
the operation fails with the "no records match" message and writes
nothing. -/
theorem delete_partitions (meta : Meta) (files : Files) (t : String)
    (whereC : Dict Value)
    (ht : dictHas meta t = true)
    (hne : (load_table_data files t).isEmpty = false) :
    ((load_table_data files t).filter (matchesWhere whereC) = [] →
      delete meta files t whereC = (some (false, NO_RECORDS_MATCH), files)) ∧
    (∀ ids, getIds ((load_table_data files t).filter (matchesWhere whereC)) = some ids →
      ids ≠ [] →
      delete meta files t whereC
        = (some (true, SUCCESS_RECORD_DELETED (", ".intercalate (ids.map pyStrValue)) t),
           save_table_data files t
             ((load_table_data files t).filter (fun r => !matchesWhere whereC r)))) := by
  constructor
  · intro hempty
    unfold delete
    simp [ht, hne, hempty, getIds]
  · intro ids hids hne2
    have hb : ids.isEmpty = false := by
      cases ids with
      | nil => exact absurd rfl hne2
      | cons a l => rfl
    unfold delete
    simp [ht, hne, hids, hb]

/-- Witness for C8: on `{ID:1, n:7}, {ID:2, n:8}`, deleting where `n = 7`
removes exactly record 1, keeps record 2 in place, and reports "1"; deleting
where `n = 99` matches nothing and fails with the no-records-match message,
writing nothing. -/
theorem delete_partitions_witness :
    delete exMetaT exFilesTwo "t" [("n", Value.vInt 7)]
      = (some (true, SUCCESS_RECORD_DELETED "1" "t"), [("t", [exRec2])]) ∧
    delete exMetaT exFilesTwo "t" [("n", Value.vInt 99)]
      = (some (false, NO_RECORDS_MATCH), exFilesTwo) := by
  have h := delete_partitions exMetaT exFilesTwo "t" [("n", Value.vInt 7)] (by rfl) (by rfl)
  have h2 := delete_partitions exMetaT exFilesTwo "t" [("n", Value.vInt 99)] (by rfl) (by rfl)
  exact ⟨(h.2 [Value.vInt 1] (by rfl) (by decide)).trans (by rfl), h2.1 (by rfl)⟩

/-- C9: every failing engine operation leaves the schema store and the
persisted record documents unchanged.  `drop_table` on an absent table
fails with the `NotFound` message and mutates neither store; a failing
`create_table` mutates neither store; and whenever `insert`, `update` or
`delete` does not return a success (it returns a failure pair or the
decorator's swallowed-exception `None`), the record store is unchanged —
no branch of those operations writes before its validation completes.
(`select`, `list_tables` and `table_info` cannot write at all: their
embeddings return no store.) -/
theorem failing_ops_mutate_nothing :
    (∀ (meta : Meta) (files : Files) (t : String), dictHas meta t = false →
      drop_table meta files t = ((false, ERROR_TABLE_NOT_EXISTS t), meta, files)) ∧
    (∀ (meta : Meta) (files : Files) (t : String) (cols : List String),
      (create_table meta files t cols).1.1 = false →
      (create_table meta files t cols).2 = (meta, files)) ∧
    (∀ (meta : Meta) (files : Files) (t : String) (values : List Value),
      (∀ m, (insert meta files t values).1 ≠ some (true, m)) →
      (insert meta files t values).2 = files) ∧
    (∀ (meta : Meta) (files : Files) (t : String) (setC whereC : Dict Value),
      (∀ m, (update meta files t setC whereC).1 ≠ some (true, m)) →
      (update meta files t setC whereC).2 = files) ∧
    (∀ (meta : Meta) (files : Files) (t : String) (whereC : Dict Value),
      (∀ m, (delete meta files t whereC).1 ≠ some (true, m)) →
      (delete meta files t whereC).2 = files) := by
  refine ⟨?_, ?_, ?_, ?_, ?_⟩
  · intro meta files t h
    unfold drop_table
    simp [h]
  · intro meta files t cols h
    by_cases hc : dictHas meta t
    · simp [create_table, hc]
    · cases hpc : parseColumns cols with
      | error m => simp [create_table, hc, hpc]
      | ok parsed =>
        exfalso
        simp [create_table, hc, hpc] at h
  · intro meta files t values h
    by_cases h1 : dictHas meta t
    · by_cases h2 : values.length = ((dictKeys (get_column_types meta t)).drop 1).length
      · by_cases h3 : validate_data_types values (get_column_types meta t) = false
        · simp [insert, h1, h2, h3]
        · cases h4 : getIdNums (load_table_data files t) with
          | none => simp [insert, h1, h2, h3, h4]
          | some ids =>
            exfalso
            have hsucc : (insert meta files t values).1
                = some (true, SUCCESS_RECORD_ADDED (newIdFrom ids) t) := by
              simp [insert, h1, h2, h3, h4]
            exact h _ hsucc
      · have h2' : ¬ values.length = (dictKeys (get_column_types meta t)).length - 1 := by
          simpa [List.length_drop] using h2
        simp [insert, h1, h2']
    · simp [insert, h1]
  · intro meta files t setC whereC h
    by_cases h1 : dictHas meta t
    · cases h2 : (dictKeys setC ++ dictKeys whereC).find?
          (fun c => !dictHas (get_column_types meta t) c) with
      | some c => simp [update, h1, h2]
      | none =>
        by_cases h3 : (load_table_data files t).isEmpty
        · simp [update, h1, h2, h3]
        · cases h4 : getIds (((load_table_data files t).filter (matchesWhere whereC)).map
              (applySet setC)) with
          | none => simp [update, h1, h2, h3, h4]
          | some ids =>
            by_cases h5 : ids.isEmpty
            · simp [update, h1, h2, h3, h4, h5]
            · exfalso
              have hsucc : (update meta files t setC whereC).1
                  = some (true, SUCCESS_RECORD_UPDATED
                      (", ".intercalate (ids.map pyStrValue)) t) := by
                simp [update, h1, h2, h3, h4, h5]
              exact h _ hsucc
    · simp [update, h1]
  · intro meta files t whereC h
    by_cases h1 : dictHas meta t
    · by_cases h2 : (load_table_data files t).isEmpty
      · simp [delete, h1, h2]
      · cases h3 : getIds ((load_table_data files t).filter (matchesWhere whereC)) with
        | none => simp [delete, h1, h2, h3]
        | some ids =>
          by_cases h4 : ids.isEmpty
          · simp [delete, h1, h2, h3, h4]
          · exfalso
            have hsucc : (delete meta files t whereC).1
                = some (true, SUCCESS_RECORD_DELETED
                    (", ".intercalate (ids.map pyStrValue)) t) := by
              simp [delete, h1, h2, h3, h4]
            exact h _ hsucc
    · simp [delete, h1]

/-- Witness for C9: `drop_table` on the absent table `x` fails `NotFound`
touching nothing; `create_table` of the already existing `t` changes
neither store; an `insert` with the wrong value count, an `update` naming
the unknown column `z`, and a `delete` matching no record all leave the
record store exactly as it was. -/
theorem failing_ops_mutate_nothing_witness :
    drop_table [] [] "x" = ((false, ERROR_TABLE_NOT_EXISTS "x"), [], []) ∧
    (create_table exMetaT exFilesOne "t" ["n:int"]).2 = (exMetaT, exFilesOne) ∧
    (insert exMetaT exFilesOne "t" []).2 = exFilesOne ∧
    (update exMetaT exFilesOne "t" [("z", Value.vInt 1)] [("ID", Value.vInt 1)]).2
      = exFilesOne ∧
    (delete exMetaT exFilesOne "t" [("n", Value.vInt 99)]).2 = exFilesOne := by
  obtain ⟨hd, hc, hi, hu, hdel⟩ := failing_ops_mutate_nothing
  refine ⟨hd [] [] "x" (by rfl), hc exMetaT exFilesOne "t" ["n:int"] (by rfl), ?_, ?_, ?_⟩
  · refine hi exMetaT exFilesOne "t" [] ?_
    intro m hm
    rw [show (insert exMetaT exFilesOne "t" []).1
        = some (false, ERROR_WRONG_VALUE_COUNT 1 0) from rfl] at hm
    simp at hm
  · refine hu exMetaT exFilesOne "t" [("z", Value.vInt 1)] [("ID", Value.vInt 1)] ?_
    intro m hm
    rw [show (update exMetaT exFilesOne "t" [("z", Value.vInt 1)] [("ID", Value.vInt 1)]).1
        = some (false, COLUMN_NOT_EXISTS "z" "t") from rfl] at hm
    simp at hm
  · refine hdel exMetaT exFilesOne "t" [("n", Value.vInt 99)] ?_
    intro m hm
    rw [show (delete exMetaT exFilesOne "t" [("n", Value.vInt 99)]).1
        = some (false, NO_RECORDS_MATCH) from rfl] at hm
    simp at hm

end PrimitiveDb
